import Mathlib

/-!
Verification of the `secure-ftp-api` HTTP/FTP relay (src/secure-ftp-api.js).

The JavaScript source is shallowly embedded: each Express route handler
becomes a pure Lean function from an explicit environment (the outcomes of
the external world: URL validation, HTTP fetch, FTP server contents and
transfer outcomes) and a request value to a response paired with a trace of
the observable side effects (HTTP fetches, staging-file writes/unlinks, FTP
session activity).  JavaScript strings are Lean `String`s, byte buffers are
`List Nat`, absent JSON fields are `Option.none`, and JS truthiness of
string-valued fields is modelled by `truthy` (undefined and the empty
string are falsy).  String primitives used by the source
(`String.prototype.includes`, `split`, `replace` with a string pattern)
are re-implemented below with structural recursion so that every
definition evaluates inside the kernel.
-/

/-- `hasPrefixB pat l` is true iff `pat` is a prefix of `l`. -/
def hasPrefixB [BEq α] : List α → List α → Bool
  | [], _ => true
  | _ :: _, [] => false
  | p :: ps, c :: cs => p == c && hasPrefixB ps cs

/-- `hasInfixB pat l` is true iff `pat` occurs contiguously inside `l`;
this is the semantics of JavaScript `l.includes(pat)`. -/
def hasInfixB [BEq α] (pat : List α) : List α → Bool
  | [] => pat.isEmpty
  | c :: cs => hasPrefixB pat (c :: cs) || hasInfixB pat cs

/-- Models JavaScript `s.includes(pat)` on strings. -/
def strContains (s pat : String) : Bool := hasInfixB pat.data s.data

/-- Index of the first occurrence of `pat` in `l` (`none` if absent). -/
def findSep (pat : List Char) : List Char → Option Nat
  | [] => if pat.isEmpty then some 0 else none
  | c :: cs => if hasPrefixB pat (c :: cs) then some 0 else (findSep pat cs).map (· + 1)

/-- Models the two leading components of JavaScript `l.split(pat)` for a
non-empty separator: `none` when `pat` does not occur (split would return a
single part), otherwise `some (parts[0], parts[1])`, where `parts[0]` is the
text before the first occurrence and `parts[1]` the text between the first
and second occurrences (or to the end).  The source only reads
`parts[0]` and `parts[1]`. -/
def jsSplitFirst (pat l : List Char) : Option (List Char × List Char) :=
  match findSep pat l with
  | none => none
  | some i =>
    let after := List.drop (i + pat.length) l
    match findSep pat after with
    | none => some (List.take i l, after)
    | some j => some (List.take i l, List.take j after)

/-- Models JavaScript `l.replace(pat, repl)` with a string pattern: only the
first occurrence is replaced; the input is returned unchanged when `pat`
does not occur. -/
def replaceFirstL (pat repl l : List Char) : List Char :=
  match findSep pat l with
  | none => l
  | some i => List.take i l ++ repl ++ List.drop (i + pat.length) l

/-- Models JavaScript `s.split('/')` (single-character separator), as used
by the directory-creation loop of `uploadToFtp` (line 155). -/
def splitSlash : List Char → List (List Char)
  | [] => [[]]
  | c :: cs =>
    if c = '/' then [] :: splitSlash cs
    else
      match splitSlash cs with
      | [] => [[c]]
      | h :: t => (c :: h) :: t

/-- JavaScript truthiness of an optional string-valued JSON field:
`undefined` and the empty string are falsy, every other string is truthy. -/
def truthy : Option String → Bool
  | none => false
  | some s => !(s == "")

/-- Value of a base64-alphabet character (`A`-`Z`, `a`-`z`, `0`-`9`, `+`,
`/`); `none` for padding and any other character. -/
def b64Val (c : Char) : Option Nat :=
  if 65 ≤ c.toNat ∧ c.toNat ≤ 90 then some (c.toNat - 65)
  else if 97 ≤ c.toNat ∧ c.toNat ≤ 122 then some (c.toNat - 97 + 26)
  else if 48 ≤ c.toNat ∧ c.toNat ≤ 57 then some (c.toNat - 48 + 52)
  else if c = '+' then some 62
  else if c = '/' then some 63
  else none

/-- Decode a stream of 6-bit values into bytes: full groups of four yield
three bytes, a trailing group of two or three yields one or two bytes, and
a lone trailing value is dropped. -/
def decodeGroups : List Nat → List Nat
  | a :: b :: c :: d :: rest =>
    (a * 4 + b / 16) :: ((b % 16) * 16 + c / 4) :: ((c % 4) * 64 + d) :: decodeGroups rest
  | [a, b] => [a * 4 + b / 16]
  | [a, b, c] => [a * 4 + b / 16, (b % 16) * 16 + c / 4]
  | _ => []

/-- Models Node `Buffer.from(s, 'base64')` (line 241): characters outside
the base64 alphabet — padding `=` included — are ignored, and the remaining
6-bit values are decoded greedily.  This agrees with Node on every
well-formed base64 string. -/
def decodeBase64 (s : String) : List Nat := decodeGroups (s.data.filterMap b64Val)

/-- Observable side effects of a request, in order of occurrence:
HTTP fetches, staging-file writes and unlinks (by local path), and FTP
session activity.  `ftpSession` abbreviates a whole
connect / ensure-directories / upload / close round of `uploadToFtp`
(lines 140-177); the download path records its FTP steps individually. -/
inductive Effect where
  | httpFetch (url : String)
  | stageWrite (p : String)
  | stageUnlink (p : String)
  | ftpConnect
  | ftpCd (dir : String)
  | ftpList (dir : String)
  | ftpDownloadTo (name : String)
  | ftpSession (remotePath fileName : String)
  | ftpClose
deriving DecidableEq, Repr

/-- Staging files still present after a trace: a `stageWrite` creates the
path, a `stageUnlink` removes it. -/
def stagedSet (tr : List Effect) : List String :=
  tr.foldl
    (fun acc e =>
      match e with
      | .stageWrite p => if acc.contains p then acc else acc ++ [p]
      | .stageUnlink p => acc.filter (fun q => q != p)
      | _ => acc)
    []

/-- JSON body of `POST /api/upload` (line 182): absent fields are `none`. -/
structure UploadReq where
  urlFile : Option String
  base64File : Option String
  path : Option String
  fileName : Option String
deriving DecidableEq, Repr

/-- The `details` object of a successful `POST /api/upload` response
(lines 293-298). -/
structure UploadDetails where
  remotePath : String
  size : Nat
  contentType : Option String
  source : String
deriving DecidableEq, Repr

/-- Response of `POST /api/upload`: an error status with `error` message and
optional `details` string, or a 200 success body. -/
inductive UploadResp where
  | err (status : Nat) (msg : String) (details : Option String)
  | ok (details : UploadDetails)
deriving DecidableEq, Repr

/-- HTTP status of an upload response. -/
def UploadResp.status : UploadResp → Nat
  | .err s _ _ => s
  | .ok _ => 200

/-- Outcomes supplied by the external world to the `POST /api/upload`
handler: whether `new URL(url)` throws (line 211, `some` carries the thrown
message), the outcome of the streaming GET plus write of `downloadFile`
(lines 81-95), and the outcome of `uploadToFtp` applied to the remote path
and file name (line 284). -/
structure UploadEnv where
  urlErr : String → Option String
  fetch : String → Except String Unit
  ftp : String → String → Except String Unit

/-- The unique staging path `path.join(__dirname, 'temp', 'temp-' + uuidv4())`
of line 199; the uuid is abstracted to a fixed token, since uniqueness
across concurrent requests is outside this sequential model. -/
def tempFilePath : String := "temp/temp-uuid"

def msgMissingParams : String :=
  "Parâmetros incompletos. É necessário fornecer urlFile ou base64File, além de path e fileName"

def msgBadFileName : String :=
  "Nome de arquivo inválido. Não pode conter caracteres de caminho"

def msgBadUrl : String := "URL inválida. Forneça uma URL completa e válida"

def msgEmptyBase64 : String := "Dados base64 inválidos ou vazios"

def msgHtmlBase64 : String := "Os dados base64 parecem ser HTML, não um arquivo válido"

def msgUploadFailed : String := "Erro ao processar o upload"

/-- The TypeError message produced when line 222 reads `.size` from the
`undefined` value that `downloadFile`'s promise resolves with (the `finish`
event of the write stream carries no argument, so `resolve()` is called
with no value).  The exact wording is Node-version dependent; only the
fact that it matches none of the substrings inspected by the error
classifier matters. -/
def typeErrUndefSize : String := "Cannot read properties of undefined (reading 'size')"

/-- Error classification of the upload catch block (lines 312-325):
`error.message` is probed with `includes` for HTML / DNS-timeout /
HTTP-status markers, mapping to 400, otherwise 500. -/
def classifyUploadError (e : String) : Nat × String :=
  if strContains e "HTML" || strContains e "página web" then
    (400, "O URL fornecido não é um link direto para download. Use uma URL que aponte diretamente para o arquivo.")
  else if strContains e "ENOTFOUND" || strContains e "ETIMEDOUT" then
    (400, "Não foi possível acessar o URL. Verifique se o endereço está correto e acessível.")
  else if strContains e "status code" then
    (400, "O servidor remoto retornou um erro ao tentar baixar o arquivo.")
  else (500, msgUploadFailed)

def sepB64 : List Char := ";base64,".data

/-- Lines 228-238: if `base64File` contains `';base64,'` it is split on it,
`parts[1]` becomes the base64 data and `parts[0]` with its first
`'data:'` occurrence removed becomes the detected content type; otherwise
the whole string is the data and no content type is detected. -/
def parseBase64Field (b64 : String) : String × Option String :=
  match jsSplitFirst sepB64 b64.data with
  | none => (b64, none)
  | some (p0, p1) => (String.mk p1, some (String.mk (replaceFirstL "data:".data [] p0)))

/-- Byte sequence of `'<!DOCTYPE html>'`, the first marker of the HTML
sniff (line 267). -/
def doctypeBytes : List Nat := "<!DOCTYPE html>".data.map Char.toNat

/-- Byte sequence of `'<html>'`, the second marker of the HTML sniff. -/
def htmlTagBytes : List Nat := "<html>".data.map Char.toNat

/-- `buf` contains `pat` as a contiguous byte run.  Line 266 re-reads the
staged bytes as a UTF-8 string and uses `includes`; since both markers are
pure ASCII and Node's UTF-8 decoding maps ASCII bytes to themselves (and
never synthesizes ASCII characters from non-ASCII bytes), the string-level
check is equivalent to this byte-level one. -/
def bytesContain (buf pat : List Nat) : Bool := hasInfixB pat buf

/-- The `POST /api/upload` handler (lines 180-339), as a function of the
external outcomes and the request.  Control flow follows the source:
parameter presence check (line 185), fileName separator check (line 192),
then either the URL branch (lines 208-223) or the base64 branch
(lines 224-280), then `uploadToFtp`, cleanup and the 200 response.  In the
URL branch a successful fetch is followed by the line-222 TypeError (see
`typeErrUndefSize`), which the catch block (lines 300-331) turns into a
classified error response after unlinking the staged file. -/
def uploadHandler (env : UploadEnv) (req : UploadReq) : UploadResp × List Effect :=
  if (!truthy req.urlFile && !truthy req.base64File) || !truthy req.path || !truthy req.fileName then
    (.err 400 msgMissingParams none, [])
  else
    let remotePath := req.path.getD ""
    let fileName := req.fileName.getD ""
    if strContains fileName "/" || strContains fileName "\\" then
      (.err 400 msgBadFileName none, [])
    else if truthy req.urlFile then
      let url := req.urlFile.getD ""
      match env.urlErr url with
      | some e => (.err 400 msgBadUrl (some e), [])
      | none =>
        match env.fetch url with
        | .error e =>
          let c := classifyUploadError e
          (.err c.1 c.2 (some e), [.httpFetch url])
        | .ok () =>
          let c := classifyUploadError typeErrUndefSize
          (.err c.1 c.2 (some typeErrUndefSize),
            [.httpFetch url, .stageWrite tempFilePath, .stageUnlink tempFilePath])
    else
      let b64 := req.base64File.getD ""
      let parsed := parseBase64Field b64
      let buffer := decodeBase64 parsed.1
      if buffer.length = 0 then
        (.err 400 msgEmptyBase64 none, [])
      else if buffer.length < 100 ∧
          (bytesContain buffer doctypeBytes = true ∨ bytesContain buffer htmlTagBytes = true) then
        (.err 400 msgHtmlBase64 none, [.stageWrite tempFilePath, .stageUnlink tempFilePath])
      else
        match env.ftp remotePath fileName with
        | .error e =>
          let c := classifyUploadError e
          (.err c.1 c.2 (some e),
            [.stageWrite tempFilePath, .ftpSession remotePath fileName, .stageUnlink tempFilePath])
        | .ok () =>
          (.ok { remotePath := remotePath ++ "/" ++ fileName, size := buffer.length,
                 contentType := parsed.2,
                 source := if truthy req.urlFile then "url" else "base64" },
            [.stageWrite tempFilePath, .ftpSession remotePath fileName, .stageUnlink tempFilePath])

/-- The `req.file` object produced by the multer middleware of
`POST /api/upload/direct` (line 342): original client-side name, size, and
the unique staging path multer already wrote the content to. -/
structure MulterFile where
  originalname : String
  size : Nat
  path : String
deriving DecidableEq, Repr

/-- Request of `POST /api/upload/direct`: the optional multer file and the
`path` / `fileName` form fields (line 348). -/
structure DirectReq where
  file : Option MulterFile
  path : Option String
  fileName : Option String
deriving DecidableEq, Repr

/-- External outcome consumed by the direct-upload handler: the result of
`uploadToFtp(uploadedFile.path, remotePath, finalFileName)` (line 359). -/
structure DirectEnv where
  ftp : String → String → Except String Unit

/-- Response of `POST /api/upload/direct` (lines 365-373 and error paths). -/
inductive DirectResp where
  | err (status : Nat) (msg : String) (details : Option String)
  | ok (originalName : String) (size : Nat) (remotePath : String)
deriving DecidableEq, Repr

/-- HTTP status of a direct-upload response. -/
def DirectResp.status : DirectResp → Nat
  | .err s _ _ => s
  | .ok _ _ _ => 200

/-- The `POST /api/upload/direct` handler (lines 342-381), composed with
the `upload.single('file')` middleware: when a file part is present multer
stages it at `file.path` before the handler body runs, which is why the
trace opens with that `stageWrite`.  The handler performs no fileName
validation; `finalFileName` falls back to the original name when the
`fileName` field is absent or empty (line 356).  Note that neither the
missing-`path` 400 return (line 352) nor the catch block (lines 374-380)
unlinks the staged file — only the success path does (line 363). -/
def directHandler (env : DirectEnv) (req : DirectReq) : DirectResp × List Effect :=
  match req.file with
  | none => (.err 400 "Nenhum arquivo enviado" none, [])
  | some file =>
    if !truthy req.path then
      (.err 400 "Caminho remoto não especificado" none, [.stageWrite file.path])
    else
      let remotePath := req.path.getD ""
      let finalFileName := if truthy req.fileName then req.fileName.getD "" else file.originalname
      match env.ftp remotePath finalFileName with
      | .error e =>
        (.err 500 msgUploadFailed (some e),
          [.stageWrite file.path, .ftpSession remotePath finalFileName])
      | .ok () =>
        (.ok file.originalname file.size (remotePath ++ "/" ++ finalFileName),
          [.stageWrite file.path, .ftpSession remotePath finalFileName, .stageUnlink file.path])

/-- Query of `GET /api/download` (line 386). -/
structure DownloadReq where
  path : Option String
  fileName : Option String
deriving DecidableEq, Repr

/-- Outcome of `client.downloadTo` (line 129).  basic-ftp opens the local
write stream before the transfer, so a failure mid-transfer leaves a
partially written local file behind (`failPartial`); only when the failure
strikes with zero bytes downloaded does the library itself remove the
just-created empty local file (`failEmpty`).  The error message is what
the promise rejects with. -/
inductive TransferOutcome where
  | ok
  | failEmpty (e : String)
  | failPartial (e : String)
deriving DecidableEq, Repr

/-- The FTP side seen by `downloadFromFtp` (lines 98-137): the outcome of
`client.access`, the set of directories `client.cd` succeeds on, the entry
names `client.list` reports per directory, and the outcome of
`client.downloadTo` (see `TransferOutcome`).  The `cd` and listing checks
of the source run before any local write in every case. -/
structure DlEnv where
  connect : Except String Unit
  dirs : List String
  entries : String → List String
  transfer : TransferOutcome

/-- Response of `GET /api/download`: an error body, or the staged file
streamed back as an attachment named `fileName` (line 410). -/
inductive DlResp where
  | err (status : Nat) (msg : String) (details : Option String)
  | attachment (fileName : String)
deriving DecidableEq, Repr

/-- HTTP status of a download response. -/
def DlResp.status : DlResp → Nat
  | .err s _ _ => s
  | .attachment _ => 200

/-- The staging path `path.join(DOWNLOAD_DIR, uuid + '-' + fileName)` of
line 403, with the uuid abstracted to a fixed token. -/
def dlTempPath (fileName : String) : String := "downloads/uuid-" ++ fileName

/-- Error mapping of the download catch block (lines 425-435):
messages containing `'não encontrado'` become 404, the rest 500. -/
def mapDownloadError (e : String) : DlResp :=
  if strContains e "não encontrado" then
    .err 404 "Arquivo ou diretório não encontrado" (some e)
  else
    .err 500 "Erro ao recuperar o arquivo" (some e)

/-- The `GET /api/download` handler (lines 384-437) with `downloadFromFtp`
(lines 98-137) inlined: parameter and fileName checks, connect, `cd` into
the remote directory (throwing `Diretório não encontrado: …` on failure,
lines 113-118), a listing-based existence check (throwing
`Arquivo não encontrado: …`, lines 120-126), the transfer, and the
`res.download` callback that unlinks the staged file whether or not the
send succeeded (lines 410-421).  The session is closed by `finally` on
every path.  The catch block (lines 422-436) contains no unlink, so a
`failPartial` transfer leaves the partially written staging file behind;
on `failEmpty` the staging write and its removal are both performed by
basic-ftp itself inside `downloadTo`. -/
def downloadHandler (env : DlEnv) (req : DownloadReq) : DlResp × List Effect :=
  if !truthy req.path || !truthy req.fileName then
    (.err 400 "Parâmetros incompletos. É necessário fornecer path e fileName" none, [])
  else
    let remotePath := req.path.getD ""
    let fileName := req.fileName.getD ""
    if strContains fileName "/" || strContains fileName "\\" then
      (.err 400 msgBadFileName none, [])
    else
      match env.connect with
      | .error e => (mapDownloadError e, [.ftpConnect, .ftpClose])
      | .ok () =>
        if remotePath ∈ env.dirs then
          if fileName ∈ env.entries remotePath then
            match env.transfer with
            | .failEmpty e =>
              (mapDownloadError e,
                [.ftpConnect, .ftpCd remotePath, .ftpList remotePath,
                 .ftpDownloadTo fileName, .stageWrite (dlTempPath fileName),
                 .stageUnlink (dlTempPath fileName), .ftpClose])
            | .failPartial e =>
              (mapDownloadError e,
                [.ftpConnect, .ftpCd remotePath, .ftpList remotePath,
                 .ftpDownloadTo fileName, .stageWrite (dlTempPath fileName), .ftpClose])
            | .ok =>
              (.attachment fileName,
                [.ftpConnect, .ftpCd remotePath, .ftpList remotePath,
                 .ftpDownloadTo fileName, .stageWrite (dlTempPath fileName), .ftpClose,
                 .stageUnlink (dlTempPath fileName)])
          else
            (mapDownloadError ("Arquivo não encontrado: " ++ fileName),
              [.ftpConnect, .ftpCd remotePath, .ftpList remotePath, .ftpClose])
        else
          (mapDownloadError ("Diretório não encontrado: " ++ remotePath),
            [.ftpConnect, .ftpCd remotePath, .ftpClose])

/-- A directory entry as reported by the FTP protocol library
(`client.list()` items, line 489): `type` is the numeric protocol code,
1 for a file and 2 for a directory. -/
structure ListEntry where
  name : String
  size : Nat
  type : Nat
  modifiedAt : Option String
deriving DecidableEq, Repr

/-- An entry of the `files` array in the `GET /api/list` response
(lines 489-496). -/
structure OutEntry where
  name : String
  size : Nat
  idType : Nat
  type : String
  modifiedDate : Option String
  isDirectory : Bool
deriving DecidableEq, Repr

/-- The per-item mapping of the `GET /api/list` handler (lines 489-496):
`size` is copied from the protocol item unchanged, `type` becomes the
human label, and `isDirectory` tests the numeric code against 2. -/
def mapItem (item : ListEntry) : OutEntry :=
  { name := item.name
    size := item.size
    idType := item.type
    type := if item.type == 2 then "pasta" else "arquivo"
    modifiedDate := item.modifiedAt
    isDirectory := item.type == 2 }

/-- The FTP side seen by the `GET /api/list` handler. -/
structure ListEnv where
  connect : Except String Unit
  dirs : List String
  listing : String → List ListEntry

/-- Response of `GET /api/list`. -/
inductive ListResp where
  | err (status : Nat) (msg : String) (details : Option String)
  | ok (path : String) (files : List OutEntry)
deriving DecidableEq, Repr

/-- The `GET /api/list` handler (lines 440-512): missing `path` is a 400
before any connection, a failing `cd` is a 404 whose error message embeds
the path (line 480), and a successful listing maps every protocol item
through `mapItem`. -/
def listHandler (env : ListEnv) (remotePath : Option String) : ListResp :=
  if !truthy remotePath then
    .err 400 "Caminho remoto não especificado" none
  else
    match env.connect with
    | .error e => .err 500 "Erro ao listar arquivos" (some e)
    | .ok () =>
      let p := remotePath.getD ""
      if p ∈ env.dirs then
        .ok p ((env.listing p).map mapItem)
      else
        .err 404 ("Diretório não encontrado: " ++ p) none

/-- State of the remote directory tree seen by `client.ensureDir`: the
list of directory paths that exist, in creation order. -/
def ensureDir (st : List String) (p : String) : List String :=
  if p ∈ st then st else st ++ [p]

/-- The directory-creation loop of `uploadToFtp` (lines 154-166): iterate
over the segments, extend `currentPath` by `'/' + dir`, and `ensureDir`
each cumulative path. -/
def ensureLoop (st : List String) (cur : String) : List String → List String
  | [] => st
  | d :: ds => ensureLoop (ensureDir st (cur ++ "/" ++ d)) (cur ++ "/" ++ d) ds

/-- Line 155: `remotePath.split('/').filter(Boolean)` — split on `'/'` and
drop the falsy (empty) segments. -/
def dirSegments (remotePath : String) : List String :=
  ((splitSlash remotePath.data).map String.mk).filter (fun s => !(s == ""))

/-- `uploadToFtp`'s effect on the remote directory tree (lines 154-166). -/
def uploadEnsureDirs (st : List String) (remotePath : String) : List String :=
  ensureLoop st "" (dirSegments remotePath)

/-- The successive values taken by `currentPath` in the loop of
lines 156-166, i.e. the paths passed to `ensureDir`, in order. -/
def dirChainAux (cur : String) : List String → List String
  | [] => []
  | d :: ds => (cur ++ "/" ++ d) :: dirChainAux (cur ++ "/" ++ d) ds

/-- The full sequence of paths the upload-side directory creation ensures
for a destination path. -/
def dirChain (remotePath : String) : List String := dirChainAux "" (dirSegments remotePath)

/-- Modelled from the spec's words (claim C8): the cumulative prefixes of a
segment list, each rendered as a slash-separated absolute path — for
segments `[a, b]` the paths `"/a"` and `"/a/b"`.  Stated independently of
the source loop so the two can be compared. -/
def specCumulativePaths : List String → List String
  | [] => []
  | s :: ss => ("/" ++ s) :: (specCumulativePaths ss).map (fun t => "/" ++ s ++ t)

theorem hasPrefixB_self_append [BEq α] [LawfulBEq α] (p r : List α) :
    hasPrefixB p (p ++ r) = true := by
  induction p with
  | nil => rfl
  | cons c cs ih => simp [hasPrefixB, ih]

theorem hasInfixB_of_hasPrefixB [BEq α] (pat s : List α)
    (h : hasPrefixB pat s = true) : hasInfixB pat s = true := by
  cases s with
  | nil =>
    cases pat with
    | nil => rfl
    | cons c cs => simp [hasPrefixB] at h
  | cons c cs => simp [hasInfixB, h]

theorem hasInfixB_append_left [BEq α] (pat pre s : List α)
    (h : hasInfixB pat s = true) : hasInfixB pat (pre ++ s) = true := by
  induction pre with
  | nil => exact h
  | cons c cs ih =>
    have hstep : hasInfixB pat (c :: (cs ++ s))
        = (hasPrefixB pat (c :: (cs ++ s)) || hasInfixB pat (cs ++ s)) := rfl
    rw [List.cons_append, hstep, ih, Bool.or_true]

/-- Both messages thrown by `downloadFromFtp` contain the substring the
catch block of `GET /api/download` tests for. -/
theorem naoEncontrado_dir (p : String) :
    strContains ("Diretório não encontrado: " ++ p) "não encontrado" = true := by
  unfold strContains
  rw [String.data_append]
  have h1 : ("Diretório não encontrado: ").data
      = "Diretório ".data ++ ("não encontrado".data ++ ": ".data) := rfl
  rw [h1, List.append_assoc]
  exact hasInfixB_append_left _ _ _
    (hasInfixB_of_hasPrefixB _ _ (by rw [List.append_assoc]
                                     exact hasPrefixB_self_append _ _))

theorem naoEncontrado_file (p : String) :
    strContains ("Arquivo não encontrado: " ++ p) "não encontrado" = true := by
  unfold strContains
  rw [String.data_append]
  have h1 : ("Arquivo não encontrado: ").data
      = "Arquivo ".data ++ ("não encontrado".data ++ ": ".data) := rfl
  rw [h1, List.append_assoc]
  exact hasInfixB_append_left _ _ _
    (hasInfixB_of_hasPrefixB _ _ (by rw [List.append_assoc]
                                     exact hasPrefixB_self_append _ _))

theorem hasPrefixB_sepB64_cons_ne (c : Char) (cs : List Char) (h : c ≠ ';') :
    hasPrefixB sepB64 (c :: cs) = false := by
  have hne : (';' == c) = false := beq_eq_false_iff_ne.mpr (fun hh => h hh.symm)
  rw [show sepB64 = ';' :: "base64,".data from rfl]
  simp [hasPrefixB, hne]

theorem findSep_sepB64_none (b : List Char) (h : ';' ∉ b) : findSep sepB64 b = none := by
  induction b with
  | nil => rfl
  | cons c cs ih =>
    have hc : c ≠ ';' := fun e => h (e ▸ List.mem_cons_self c cs)
    have hcs : ';' ∉ cs := fun hm => h (List.mem_cons_of_mem _ hm)
    simp [findSep, hasPrefixB_sepB64_cons_ne c cs hc, ih hcs]

theorem findSep_sepB64_append (a b : List Char) (h : ';' ∉ a) :
    findSep sepB64 (a ++ (sepB64 ++ b)) = some a.length := by
  induction a with
  | nil =>
    have hp : hasPrefixB sepB64 (sepB64 ++ b) = true := hasPrefixB_self_append _ _
    simp only [List.nil_append, List.length_nil]
    rw [show sepB64 ++ b = ';' :: ("base64,".data ++ b) from rfl] at hp ⊢
    simp only [findSep, hp]
    simp
  | cons c cs ih =>
    have hc : c ≠ ';' := fun e => h (e ▸ List.mem_cons_self c cs)
    have hcs : ';' ∉ cs := fun hm => h (List.mem_cons_of_mem _ hm)
    rw [List.cons_append]
    simp [findSep, hasPrefixB_sepB64_cons_ne c _ hc, ih hcs, Nat.add_comm]

theorem replaceFirst_strip_data (m : List Char) :
    replaceFirstL "data:".data [] ("data:".data ++ m) = m := by
  have h0 : findSep "data:".data ("data:".data ++ m) = some 0 := by
    have hp : hasPrefixB "data:".data ("data:".data ++ m) = true := hasPrefixB_self_append _ _
    rw [show "data:".data ++ m = 'd' :: ("ata:".data ++ m) from rfl] at hp ⊢
    simp only [findSep, hp]
    simp
  unfold replaceFirstL
  rw [h0]
  simp only [List.take_zero, List.nil_append, List.append_nil, Nat.zero_add]
  exact List.drop_left _ m

/-- Lines 228-238 on a well-formed data URI: for a `base64File` of the form
`data:<mime>;base64,<rest>` where neither `<mime>` nor `<rest>` contains a
semicolon (so the split separator occurs exactly once), the declared mime
is recorded and the remainder becomes the base64 data. -/
theorem parseBase64Field_dataUri (mime rest : String)
    (h1 : ';' ∉ mime.data) (h2 : ';' ∉ rest.data) :
    parseBase64Field ("data:" ++ mime ++ ";base64," ++ rest) = (rest, some mime) := by
  have hdata : ("data:" ++ mime ++ ";base64," ++ rest).data
      = ("data:".data ++ mime.data) ++ (sepB64 ++ rest.data) := by
    rw [show sepB64 = ";base64,".data from rfl]
    simp [String.data_append, List.append_assoc]
  have hnosemi : ';' ∉ ("data:".data ++ mime.data) := by
    intro hm
    rcases List.mem_append.mp hm with hma | hmb
    · exact absurd hma (by decide)
    · exact h1 hmb
  have hfind := findSep_sepB64_append ("data:".data ++ mime.data) rest.data hnosemi
  have hdrop : List.drop (("data:".data ++ mime.data).length + sepB64.length)
      (("data:".data ++ mime.data) ++ (sepB64 ++ rest.data)) = rest.data := by
    rw [← List.length_append, ← List.append_assoc]
    exact List.drop_left _ _
  have htake : List.take (("data:".data ++ mime.data).length)
      (("data:".data ++ mime.data) ++ (sepB64 ++ rest.data)) = "data:".data ++ mime.data :=
    List.take_left _ _
  unfold parseBase64Field jsSplitFirst
  rw [hdata, hfind]
  simp only [hdrop, htake, findSep_sepB64_none rest.data h2]
  rw [replaceFirst_strip_data mime.data]

theorem mem_ensureDir (st : List String) (p q : String) :
    q ∈ ensureDir st p ↔ q ∈ st ∨ q = p := by
  unfold ensureDir
  split
  · rename_i hmem
    constructor
    · exact fun h => Or.inl h
    · rintro (h | rfl)
      · exact h
      · exact hmem
  · simp [List.mem_append]

theorem ensureDir_of_mem (st : List String) (p : String) (h : p ∈ st) :
    ensureDir st p = st := if_pos h

theorem ensureLoop_eq_foldl (ds : List String) (st : List String) (cur : String) :
    ensureLoop st cur ds = (dirChainAux cur ds).foldl ensureDir st := by
  induction ds generalizing st cur with
  | nil => rfl
  | cons d ds ih => simp [ensureLoop, dirChainAux, List.foldl, ih]

theorem mem_foldl_ensureDir (l : List String) (st : List String) (q : String) :
    q ∈ l.foldl ensureDir st ↔ q ∈ st ∨ q ∈ l := by
  induction l generalizing st with
  | nil => simp
  | cons p ps ih =>
    simp only [List.foldl_cons, ih, mem_ensureDir, List.mem_cons]
    tauto

theorem foldl_ensureDir_nodup (l st : List String) (h : st.Nodup) :
    (l.foldl ensureDir st).Nodup := by
  induction l generalizing st with
  | nil => exact h
  | cons p ps ih =>
    rw [List.foldl_cons]
    apply ih
    unfold ensureDir
    split
    · exact h
    · rename_i hnp
      simp [List.nodup_append, h, hnp]

theorem foldl_ensureDir_id (l st : List String) (h : ∀ q ∈ l, q ∈ st) :
    l.foldl ensureDir st = st := by
  induction l with
  | nil => rfl
  | cons p ps ih =>
    rw [List.foldl_cons, ensureDir_of_mem st p (h p (by simp))]
    exact ih (fun q hq => h q (by simp [hq]))

theorem dirChainAux_eq_map (ss : List String) (cur : String) :
    dirChainAux cur ss = (specCumulativePaths ss).map (fun t => cur ++ t) := by
  induction ss generalizing cur with
  | nil => rfl
  | cons s ss ih =>
    rw [dirChainAux, ih]
    simp only [specCumulativePaths, List.map_cons, List.map_map]
    congr 1
    · rw [String.append_assoc]
    · apply List.map_congr_left
      intro t _
      show (cur ++ "/" ++ s) ++ t = cur ++ ("/" ++ s ++ t)
      rw [String.append_assoc cur "/" s, String.append_assoc cur ("/" ++ s) t]

theorem dirChain_eq_spec (p : String) :
    dirChain p = specCumulativePaths (dirSegments p) := by
  unfold dirChain
  rw [dirChainAux_eq_map]
  rw [show (fun t : String => "" ++ t) = fun t : String => t from funext fun t => rfl]
  exact List.map_id' _

/-- An environment in which every external operation succeeds. -/
def envAllOk : UploadEnv :=
  { urlErr := fun _ => none, fetch := fun _ => .ok (), ftp := fun _ _ => .ok () }

/-- A direct-upload environment whose FTP transfer succeeds. -/
def denvOk : DirectEnv := ⟨fun _ _ => .ok ()⟩

/-- A remote server with one directory `/docs` holding `report.pdf`. -/
def dlEnvDocs : DlEnv :=
  { connect := .ok (), dirs := ["/docs"],
    entries := fun p => if p == "/docs" then ["report.pdf"] else [], transfer := .ok }

/-- A remote server whose `/docs` listing holds one file and one
subdirectory (the subdirectory with a nonzero protocol-reported size). -/
def listEnvDocs : ListEnv :=
  { connect := .ok (), dirs := ["/docs"],
    listing := fun _ => [⟨"report.pdf", 2048, 1, none⟩, ⟨"archive", 4096, 2, none⟩] }

/-- A multer-staged file as left by the `upload.single('file')` middleware. -/
def multerStaged : MulterFile := ⟨"doc.pdf", 123, "temp/uuid-doc.pdf"⟩

/-- C6: a `POST /api/upload` request in which neither `urlFile` nor
`base64File` is set, or `path` or `fileName` is missing, is rejected with
the 400 incomplete-parameters error and an empty effect trace — no HTTP
fetch, no staging write and no FTP session occur. -/
theorem c6_upload_missing_params_rejected (env : UploadEnv) (req : UploadReq)
    (h : (truthy req.urlFile = false ∧ truthy req.base64File = false)
        ∨ truthy req.path = false ∨ truthy req.fileName = false) :
    uploadHandler env req = (.err 400 msgMissingParams none, []) := by
  unfold uploadHandler
  have hc : ((!truthy req.urlFile && !truthy req.base64File)
      || !truthy req.path || !truthy req.fileName) = true := by
    rcases h with ⟨h1, h2⟩ | h1 | h1
    · simp [h1, h2]
    · simp [h1]
    · simp [h1]
  rw [if_pos hc]

theorem c6_witness :
    uploadHandler envAllOk ⟨none, none, some "/up", some "f.bin"⟩
      = (.err 400 msgMissingParams none, []) :=
  c6_upload_missing_params_rejected envAllOk _ (Or.inl ⟨rfl, rfl⟩)

/-- C8: the upload-side directory creation ensures exactly the cumulative
prefix paths of the destination (splitting on `/` and ignoring empty
segments, compared against the spec-level `specCumulativePaths`); the set
of remote directories after the loop is the old set united with that
chain; running the loop a second time on the same path changes nothing;
and it never introduces a duplicate directory. -/
theorem c8_ensureDirectory_chain_idempotent :
    (∀ p : String, dirChain p = specCumulativePaths (dirSegments p))
    ∧ (∀ (st : List String) (p q : String),
        q ∈ uploadEnsureDirs st p ↔ q ∈ st ∨ q ∈ dirChain p)
    ∧ (∀ (st : List String) (p : String),
        uploadEnsureDirs (uploadEnsureDirs st p) p = uploadEnsureDirs st p)
    ∧ (∀ (st : List String) (p : String), st.Nodup → (uploadEnsureDirs st p).Nodup) := by
  refine ⟨dirChain_eq_spec, ?_, ?_, ?_⟩
  · intro st p q
    unfold uploadEnsureDirs
    rw [ensureLoop_eq_foldl]
    exact mem_foldl_ensureDir _ _ _
  · intro st p
    unfold uploadEnsureDirs
    rw [ensureLoop_eq_foldl, ensureLoop_eq_foldl]
    apply foldl_ensureDir_id
    intro q hq
    rw [mem_foldl_ensureDir]
    exact Or.inr hq
  · intro st p h
    unfold uploadEnsureDirs
    rw [ensureLoop_eq_foldl]
    exact foldl_ensureDir_nodup _ _ h

theorem c8_witness :
    dirChain "/files//reports" = specCumulativePaths (dirSegments "/files//reports")
    ∧ uploadEnsureDirs (uploadEnsureDirs [] "/files//reports") "/files//reports"
        = uploadEnsureDirs [] "/files//reports"
    ∧ (uploadEnsureDirs [] "/files//reports").Nodup
    ∧ ("/files" ∈ uploadEnsureDirs [] "/files//reports"
        ↔ "/files" ∈ ([] : List String) ∨ "/files" ∈ dirChain "/files//reports") :=
  ⟨c8_ensureDirectory_chain_idempotent.1 _,
   c8_ensureDirectory_chain_idempotent.2.2.1 _ _,
   c8_ensureDirectory_chain_idempotent.2.2.2 _ _ (by decide),
   c8_ensureDirectory_chain_idempotent.2.1 _ _ _⟩

/-- C4 amended: every `GET /api/list` entry — directories included —
reports the size the protocol reported, unchanged (directory sizes are NOT
zeroed); `isDirectory` is true exactly for protocol type-2 entries; and a
successful listing maps every protocol item through `mapItem`. -/
theorem c4_list_size_passthrough :
    (∀ item : ListEntry, (mapItem item).size = item.size
      ∧ ((mapItem item).isDirectory = true ↔ item.type = 2))
    ∧ (∀ (env : ListEnv) (p : String), p ≠ "" → env.connect = .ok () → p ∈ env.dirs →
        listHandler env (some p) = .ok p ((env.listing p).map mapItem)) := by
  constructor
  · intro item
    exact ⟨rfl, by simp [mapItem]⟩
  · intro env p hp hc hd
    unfold listHandler
    simp [truthy, hp, hc, hd]

theorem c4_witness :
    listHandler listEnvDocs (some "/docs")
      = .ok "/docs" ((listEnvDocs.listing "/docs").map mapItem)
    ∧ (mapItem ⟨"archive", 4096, 2, none⟩).size = (4096 : Nat) :=
  ⟨c4_list_size_passthrough.2 listEnvDocs "/docs" (by decide) rfl (by decide),
   (c4_list_size_passthrough.1 ⟨"archive", 4096, 2, none⟩).1⟩

/-- C4 counterexample: the spec example — a listing with `report.pdf`
(2048 bytes, a file) and `archive` (a directory the protocol reports with
size 4096) — yields a directory entry whose reported size is 4096, not 0:
the handler copies `item.size` for directories too. -/
theorem c4_counterexample :
    listHandler listEnvDocs (some "/docs")
      = .ok "/docs"
          [⟨"report.pdf", 2048, 1, "arquivo", none, false⟩,
           ⟨"archive", 4096, 2, "pasta", none, true⟩]
    ∧ (mapItem ⟨"archive", 4096, 2, none⟩).size ≠ 0 := by
  constructor
  · rfl
  · decide

/-- C1 amended: `POST /api/upload` and `GET /api/download` reject a
`fileName` containing `/` or `\` with the 400 invalid-filename error and
an empty effect trace (no staging or remote-session activity), but
`POST /api/upload/direct` performs no such validation: it accepts any
`fileName` — path separators included — and uses it verbatim in the remote
path. -/
theorem c1_fileName_validation_except_direct :
    (∀ (env : UploadEnv) (req : UploadReq) (fn : String),
        req.fileName = some fn → fn ≠ "" →
        (truthy req.urlFile = true ∨ truthy req.base64File = true) →
        truthy req.path = true →
        (strContains fn "/" = true ∨ strContains fn "\\" = true) →
        uploadHandler env req = (.err 400 msgBadFileName none, []))
    ∧ (∀ (env : DlEnv) (req : DownloadReq) (fn : String),
        req.fileName = some fn → fn ≠ "" → truthy req.path = true →
        (strContains fn "/" = true ∨ strContains fn "\\" = true) →
        downloadHandler env req = (.err 400 msgBadFileName none, []))
    ∧ (∀ (env : DirectEnv) (f : MulterFile) (p fn : String), p ≠ "" → fn ≠ "" →
        env.ftp p fn = .ok () →
        directHandler env ⟨some f, some p, some fn⟩
          = (.ok f.originalname f.size (p ++ "/" ++ fn),
             [.stageWrite f.path, .ftpSession p fn, .stageUnlink f.path])) := by
  refine ⟨?_, ?_, ?_⟩
  · intro env req fn hfn hne hsrc hpath hsep
    unfold uploadHandler
    have hfile : truthy req.fileName = true := by
      rw [hfn]
      simp [truthy, hne]
    have h1 : ((!truthy req.urlFile && !truthy req.base64File)
        || !truthy req.path || !truthy req.fileName) = false := by
      rcases hsrc with h | h <;> simp [h, hpath, hfile]
    rw [if_neg (by simp [h1])]
    have h2 : (strContains (req.fileName.getD "") "/"
        || strContains (req.fileName.getD "") "\\") = true := by
      rcases hsep with h | h <;> simp [hfn, h]
    rw [if_pos (by simp [h2])]
  · intro env req fn hfn hne hpath hsep
    unfold downloadHandler
    have hfile : truthy req.fileName = true := by
      rw [hfn]
      simp [truthy, hne]
    have h1 : (!truthy req.path || !truthy req.fileName) = false := by
      simp [hpath, hfile]
    rw [if_neg (by simp [h1])]
    have h2 : (strContains (req.fileName.getD "") "/"
        || strContains (req.fileName.getD "") "\\") = true := by
      rcases hsep with h | h <;> simp [hfn, h]
    rw [if_pos (by simp [h2])]
  · intro env f p fn hp hfn hftp
    unfold directHandler
    simp [truthy, hp, hfn, hftp]

theorem c1_witness :
    uploadHandler envAllOk ⟨some "http://example.com/f", none, some "/up", some "a/b"⟩
      = (.err 400 msgBadFileName none, [])
    ∧ downloadHandler dlEnvDocs ⟨some "/docs", some "a\\b"⟩
      = (.err 400 msgBadFileName none, [])
    ∧ directHandler denvOk ⟨some multerStaged, some "/up", some "../secret"⟩
      = (.ok "doc.pdf" 123 "/up/../secret",
         [.stageWrite "temp/uuid-doc.pdf", .ftpSession "/up" "../secret",
          .stageUnlink "temp/uuid-doc.pdf"]) :=
  ⟨c1_fileName_validation_except_direct.1 envAllOk _ "a/b" rfl (by decide)
      (Or.inl (by decide)) (by decide) (Or.inl (by decide)),
   c1_fileName_validation_except_direct.2.1 dlEnvDocs _ "a\\b" rfl (by decide)
      (by decide) (Or.inr (by decide)),
   c1_fileName_validation_except_direct.2.2 denvOk multerStaged "/up" "../secret"
      (by decide) (by decide) rfl⟩

/-- C1 counterexample: `POST /api/upload/direct` accepts a `fileName`
containing path separators — the request succeeds with status 200 and the
separator-laden name is spliced into the remote path, instead of failing
with the 400 invalid-filename error the claim asserts for every endpoint. -/
theorem c1_counterexample :
    directHandler denvOk ⟨some multerStaged, some "/up", some "../secret"⟩
      = (.ok "doc.pdf" 123 "/up/../secret",
         [.stageWrite "temp/uuid-doc.pdf", .ftpSession "/up" "../secret",
          .stageUnlink "temp/uuid-doc.pdf"])
    ∧ (directHandler denvOk ⟨some multerStaged, some "/up", some "../secret"⟩).1.status
        ≠ 400 := by
  constructor
  · rfl
  · decide

theorem classify_typeErr : classifyUploadError typeErrUndefSize = (500, msgUploadFailed) := by
  decide

/-- Core of the URL-branch defect, shared below: with all parameters
present and valid and a successful fetch, the handler answers 500 with the
TypeError message, after writing and then unlinking the staging file,
whatever `base64File` holds. -/
theorem uploadHandler_url_fetch_ok (env : UploadEnv) (bf : Option String) (u p fn : String)
    (hu : u ≠ "") (hp : p ≠ "") (hfn : fn ≠ "")
    (hs1 : strContains fn "/" = false) (hs2 : strContains fn "\\" = false)
    (hurl : env.urlErr u = none) (hfetch : env.fetch u = .ok ()) :
    uploadHandler env ⟨some u, bf, some p, some fn⟩
      = (.err 500 msgUploadFailed (some typeErrUndefSize),
         [.httpFetch u, .stageWrite tempFilePath, .stageUnlink tempFilePath]) := by
  have htu : truthy (some u) = true := by simp [truthy, hu]
  have htp : truthy (some p) = true := by simp [truthy, hp]
  have htf : truthy (some fn) = true := by simp [truthy, hfn]
  unfold uploadHandler
  simp [htu, htp, htf, hs1, hs2, hurl, hfetch, classify_typeErr]

/-- C3 (code bug): in `POST /api/upload`, a valid `urlFile` whose fetch
succeeds never yields the 200 success body.  `downloadFile` (lines 81-95)
resolves its promise from the write stream's `finish` event, which carries
no value, so `fileInfo` becomes `undefined`; line 222 then reads
`fileInfo.size` inside the log template and throws a TypeError before
`uploadToFtp` is ever reached.  The catch block (lines 300-331) unlinks
the staged file and, since the TypeError message matches none of the
inspected substrings, answers 500 with the generic upload-failure error —
for every request and every environment in which the fetch succeeds. -/
theorem c3_url_upload_always_500 (env : UploadEnv) (bf : Option String) (u p fn : String)
    (hu : u ≠ "") (hp : p ≠ "") (hfn : fn ≠ "")
    (hs1 : strContains fn "/" = false) (hs2 : strContains fn "\\" = false)
    (hurl : env.urlErr u = none) (hfetch : env.fetch u = .ok ()) :
    uploadHandler env ⟨some u, bf, some p, some fn⟩
      = (.err 500 msgUploadFailed (some typeErrUndefSize),
         [.httpFetch u, .stageWrite tempFilePath, .stageUnlink tempFilePath]) :=
  uploadHandler_url_fetch_ok env bf u p fn hu hp hfn hs1 hs2 hurl hfetch

theorem c3_witness :
    uploadHandler envAllOk ⟨some "http://example.com/file.bin", none, some "/uploads", some "file.bin"⟩
      = (.err 500 msgUploadFailed (some typeErrUndefSize),
         [.httpFetch "http://example.com/file.bin", .stageWrite tempFilePath,
          .stageUnlink tempFilePath]) :=
  c3_url_upload_always_500 envAllOk none "http://example.com/file.bin" "/uploads" "file.bin"
    (by decide) (by decide) (by decide) (by decide) (by decide) rfl rfl

/-- C5 amended: a `POST /api/upload` request carrying BOTH `urlFile` and
`base64File` passes the line-185 validation (which only requires at least
one of them) and is processed through the URL branch — `urlFile` takes
precedence, `base64File` is ignored, the HTTP fetch is issued — instead of
being rejected with a 400.  (Owing to the URL-path defect of C3 the
processing then ends in a 500.) -/
theorem c5_both_sources_processed_as_url (env : UploadEnv) (u b p fn : String)
    (hu : u ≠ "") (_hb : b ≠ "") (hp : p ≠ "") (hfn : fn ≠ "")
    (hs1 : strContains fn "/" = false) (hs2 : strContains fn "\\" = false)
    (hurl : env.urlErr u = none) (hfetch : env.fetch u = .ok ()) :
    uploadHandler env ⟨some u, some b, some p, some fn⟩
      = (.err 500 msgUploadFailed (some typeErrUndefSize),
         [.httpFetch u, .stageWrite tempFilePath, .stageUnlink tempFilePath])
    ∧ (uploadHandler env ⟨some u, some b, some p, some fn⟩).1.status ≠ 400 := by
  have h := uploadHandler_url_fetch_ok env (some b) u p fn hu hp hfn hs1 hs2 hurl hfetch
  refine ⟨h, ?_⟩
  rw [h]
  show (500 : Nat) ≠ 400
  decide

theorem c5_witness :
    uploadHandler envAllOk
        ⟨some "http://example.com/f.bin", some "SGVsbG8=", some "/up", some "f.bin"⟩
      = (.err 500 msgUploadFailed (some typeErrUndefSize),
         [.httpFetch "http://example.com/f.bin", .stageWrite tempFilePath,
          .stageUnlink tempFilePath])
    ∧ (uploadHandler envAllOk
        ⟨some "http://example.com/f.bin", some "SGVsbG8=", some "/up", some "f.bin"⟩).1.status
        ≠ 400 :=
  c5_both_sources_processed_as_url envAllOk "http://example.com/f.bin" "SGVsbG8=" "/up" "f.bin"
    (by decide) (by decide) (by decide) (by decide) (by decide) (by decide) rfl rfl

/-- C5 counterexample: a request with BOTH `urlFile` and `base64File`
present is not answered with the 400 incomplete-parameters rejection: the
line-185 check only demands at least one source, so the request proceeds
into the URL branch — the effect trace shows the HTTP fetch — and the
response status is 500 (the C3 defect), not 400. -/
theorem c5_counterexample :
    (uploadHandler envAllOk
        ⟨some "http://example.com/f.bin", some "SGVsbG8=", some "/up", some "f.bin"⟩).1.status
      = 500
    ∧ (uploadHandler envAllOk
        ⟨some "http://example.com/f.bin", some "SGVsbG8=", some "/up", some "f.bin"⟩).2
      = [.httpFetch "http://example.com/f.bin", .stageWrite tempFilePath,
         .stageUnlink tempFilePath] := by
  constructor
  · rfl
  · rfl

/-- C2 amended: the JSON upload handler leaves no staging file behind on
any exit path.  The download handler cleans up on every exit path other
than a mid-transfer failure — on success the `res.download` callback
unlinks, and a zero-byte transfer failure leaves nothing because basic-ftp
removes the empty local file itself — but when `client.downloadTo` fails
after bytes were written, the partially written staging file remains: the
route's catch (lines 422-436) contains no unlink.  `POST /api/upload/direct`
deletes the multer-staged file only on success: when `path` is missing
(the line-352 early 400) or when the FTP upload fails (the line-374
catch), the staged file remains. -/
theorem c2_staging_release :
    (∀ (env : UploadEnv) (req : UploadReq), stagedSet (uploadHandler env req).2 = [])
    ∧ (∀ (env : DlEnv) (req : DownloadReq), (∀ e, env.transfer ≠ .failPartial e) →
        stagedSet (downloadHandler env req).2 = [])
    ∧ (∀ (env : DlEnv) (p fn e : String), p ≠ "" → fn ≠ "" →
        strContains fn "/" = false → strContains fn "\\" = false →
        env.connect = .ok () → p ∈ env.dirs → fn ∈ env.entries p →
        env.transfer = .failPartial e →
        stagedSet (downloadHandler env ⟨some p, some fn⟩).2 = [dlTempPath fn])
    ∧ (∀ (env : DirectEnv) (f : MulterFile) (p fn : String), p ≠ "" → fn ≠ "" →
        env.ftp p fn = .ok () →
        stagedSet (directHandler env ⟨some f, some p, some fn⟩).2 = [])
    ∧ (∀ (env : DirectEnv) (f : MulterFile) (q fn : Option String), truthy q = false →
        stagedSet (directHandler env ⟨some f, q, fn⟩).2 = [f.path])
    ∧ (∀ (env : DirectEnv) (f : MulterFile) (p fn e : String), p ≠ "" → fn ≠ "" →
        env.ftp p fn = .error e →
        stagedSet (directHandler env ⟨some f, some p, some fn⟩).2 = [f.path]) := by
  refine ⟨?_, ?_, ?_, ?_, ?_, ?_⟩
  · intro env req
    unfold uploadHandler
    dsimp only
    split_ifs <;> (repeat' split) <;> simp [stagedSet]
  · intro env req h
    unfold downloadHandler
    dsimp only
    cases htr : env.transfer with
    | ok => split_ifs <;> (repeat' split) <;> simp_all [stagedSet]
    | failEmpty e => split_ifs <;> (repeat' split) <;> simp_all [stagedSet]
    | failPartial e => exact absurd htr (h e)
  · intro env p fn e hp hfn hs1 hs2 hc hd hf htr
    have htp : truthy (some p) = true := by simp [truthy, hp]
    have htf : truthy (some fn) = true := by simp [truthy, hfn]
    unfold downloadHandler
    simp [htp, htf, hs1, hs2, hc, hd, hf, htr, stagedSet]
  · intro env f p fn hp hfn hftp
    unfold directHandler
    simp [truthy, hp, hfn, hftp, stagedSet]
  · intro env f q fn hq
    unfold directHandler
    simp [hq, stagedSet]
  · intro env f p fn e hp hfn hftp
    unfold directHandler
    simp [truthy, hp, hfn, hftp, stagedSet]

theorem c2_witness :
    stagedSet (uploadHandler envAllOk
        ⟨none, some "data:text/plain;base64,SGVsbG8=", some "/up", some "hello.txt"⟩).2 = []
    ∧ stagedSet (downloadHandler dlEnvDocs ⟨some "/docs", some "report.pdf"⟩).2 = []
    ∧ stagedSet (downloadHandler { dlEnvDocs with transfer := .failPartial "Timeout" }
        ⟨some "/docs", some "report.pdf"⟩).2 = [dlTempPath "report.pdf"]
    ∧ stagedSet (directHandler denvOk ⟨some multerStaged, some "/up", some "doc.pdf"⟩).2 = []
    ∧ stagedSet (directHandler denvOk ⟨some multerStaged, none, none⟩).2 = ["temp/uuid-doc.pdf"]
    ∧ stagedSet (directHandler ⟨fun _ _ => .error "Timeout"⟩
        ⟨some multerStaged, some "/up", some "doc.pdf"⟩).2 = ["temp/uuid-doc.pdf"] :=
  ⟨c2_staging_release.1 envAllOk _,
   c2_staging_release.2.1 dlEnvDocs _ (by intro e; simp [dlEnvDocs]),
   c2_staging_release.2.2.1 { dlEnvDocs with transfer := .failPartial "Timeout" }
     "/docs" "report.pdf" "Timeout" (by decide) (by decide) (by decide) (by decide)
     rfl (by decide) (by decide) rfl,
   c2_staging_release.2.2.2.1 denvOk multerStaged "/up" "doc.pdf" (by decide) (by decide) rfl,
   c2_staging_release.2.2.2.2.1 denvOk multerStaged none none rfl,
   c2_staging_release.2.2.2.2.2 ⟨fun _ _ => .error "Timeout"⟩ multerStaged "/up" "doc.pdf"
     "Timeout" (by decide) (by decide) rfl⟩

/-- C2 counterexample: a direct multipart upload whose `path` field is
missing returns the 400 error with the multer-staged file still present —
the handler exits without deleting the staging file, refuting the claim
that every exit path of every transfer handler deletes it. -/
theorem c2_counterexample :
    (directHandler denvOk ⟨some multerStaged, none, none⟩).1
      = .err 400 "Caminho remoto não especificado" none
    ∧ stagedSet (directHandler denvOk ⟨some multerStaged, none, none⟩).2
      = ["temp/uuid-doc.pdf"] := by
  constructor
  · rfl
  · rfl

/-- C7: with both parameters present and a valid fileName, the remote
download first `cd`s into the requested directory and, if that fails,
the caller gets a 404 whose details carry the directory-not-found message;
otherwise the directory is listed and a fileName absent from the listing
yields a 404 with the file-not-found message; otherwise the named entry is
transferred to the local staging path (`ftpDownloadTo` followed by the
staging write at `dlTempPath`). -/
theorem c7_download_not_found_taxonomy :
    (∀ (env : DlEnv) (p fn : String), p ≠ "" → fn ≠ "" →
        strContains fn "/" = false → strContains fn "\\" = false →
        env.connect = .ok () → p ∉ env.dirs →
        downloadHandler env ⟨some p, some fn⟩
          = (.err 404 "Arquivo ou diretório não encontrado"
               (some ("Diretório não encontrado: " ++ p)),
             [.ftpConnect, .ftpCd p, .ftpClose]))
    ∧ (∀ (env : DlEnv) (p fn : String), p ≠ "" → fn ≠ "" →
        strContains fn "/" = false → strContains fn "\\" = false →
        env.connect = .ok () → p ∈ env.dirs → fn ∉ env.entries p →
        downloadHandler env ⟨some p, some fn⟩
          = (.err 404 "Arquivo ou diretório não encontrado"
               (some ("Arquivo não encontrado: " ++ fn)),
             [.ftpConnect, .ftpCd p, .ftpList p, .ftpClose]))
    ∧ (∀ (env : DlEnv) (p fn : String), p ≠ "" → fn ≠ "" →
        strContains fn "/" = false → strContains fn "\\" = false →
        env.connect = .ok () → p ∈ env.dirs → fn ∈ env.entries p →
        env.transfer = .ok →
        downloadHandler env ⟨some p, some fn⟩
          = (.attachment fn,
             [.ftpConnect, .ftpCd p, .ftpList p, .ftpDownloadTo fn,
              .stageWrite (dlTempPath fn), .ftpClose, .stageUnlink (dlTempPath fn)])) := by
  refine ⟨?_, ?_, ?_⟩
  · intro env p fn hp hfn hs1 hs2 hc hd
    have htp : truthy (some p) = true := by simp [truthy, hp]
    have htf : truthy (some fn) = true := by simp [truthy, hfn]
    unfold downloadHandler
    simp [htp, htf, hs1, hs2, hc, hd, mapDownloadError, naoEncontrado_dir]
  · intro env p fn hp hfn hs1 hs2 hc hd hf
    have htp : truthy (some p) = true := by simp [truthy, hp]
    have htf : truthy (some fn) = true := by simp [truthy, hfn]
    unfold downloadHandler
    simp [htp, htf, hs1, hs2, hc, hd, hf, mapDownloadError, naoEncontrado_file]
  · intro env p fn hp hfn hs1 hs2 hc hd hf ht
    have htp : truthy (some p) = true := by simp [truthy, hp]
    have htf : truthy (some fn) = true := by simp [truthy, hfn]
    unfold downloadHandler
    simp [htp, htf, hs1, hs2, hc, hd, hf, ht]

theorem c7_witness :
    downloadHandler dlEnvDocs ⟨some "/missing", some "report.pdf"⟩
      = (.err 404 "Arquivo ou diretório não encontrado"
           (some ("Diretório não encontrado: " ++ "/missing")),
         [.ftpConnect, .ftpCd "/missing", .ftpClose])
    ∧ downloadHandler dlEnvDocs ⟨some "/docs", some "nope.pdf"⟩
      = (.err 404 "Arquivo ou diretório não encontrado"
           (some ("Arquivo não encontrado: " ++ "nope.pdf")),
         [.ftpConnect, .ftpCd "/docs", .ftpList "/docs", .ftpClose])
    ∧ downloadHandler dlEnvDocs ⟨some "/docs", some "report.pdf"⟩
      = (.attachment "report.pdf",
         [.ftpConnect, .ftpCd "/docs", .ftpList "/docs", .ftpDownloadTo "report.pdf",
          .stageWrite (dlTempPath "report.pdf"), .ftpClose,
          .stageUnlink (dlTempPath "report.pdf")]) :=
  ⟨c7_download_not_found_taxonomy.1 dlEnvDocs "/missing" "report.pdf" (by decide) (by decide)
     (by decide) (by decide) rfl (by decide),
   c7_download_not_found_taxonomy.2.1 dlEnvDocs "/docs" "nope.pdf" (by decide) (by decide)
     (by decide) (by decide) rfl (by decide) (by decide),
   c7_download_not_found_taxonomy.2.2 dlEnvDocs "/docs" "report.pdf" (by decide) (by decide)
     (by decide) (by decide) rfl (by decide) (by decide) rfl⟩

/-- C9: a `base64File` of the form `data:<mime>;base64,<rest>` has the
prefix stripped and the declared mime recorded as the content type while
`<rest>` is decoded as standard base64 (stated for well-formed data URIs,
whose mime and payload contain no semicolon); the spec's concrete example
decodes to the bytes of `Hello`; a payload decoding to zero bytes is
rejected with the 400 invalid-base64 error before any staging write; and
the concrete example uploads successfully with contentType `text/plain`
and size 5. -/
theorem c9_base64_data_uri :
    (∀ mime rest : String, ';' ∉ mime.data → ';' ∉ rest.data →
        parseBase64Field ("data:" ++ mime ++ ";base64," ++ rest) = (rest, some mime))
    ∧ decodeBase64 "SGVsbG8=" = "Hello".data.map Char.toNat
    ∧ (∀ (env : UploadEnv) (b p fn : String), b ≠ "" → p ≠ "" → fn ≠ "" →
        strContains fn "/" = false → strContains fn "\\" = false →
        decodeBase64 (parseBase64Field b).1 = [] →
        uploadHandler env ⟨none, some b, some p, some fn⟩
          = (.err 400 msgEmptyBase64 none, []))
    ∧ uploadHandler envAllOk
        ⟨none, some "data:text/plain;base64,SGVsbG8=", some "/up", some "hello.txt"⟩
      = (.ok ⟨"/up/hello.txt", 5, some "text/plain", "base64"⟩,
         [.stageWrite tempFilePath, .ftpSession "/up" "hello.txt",
          .stageUnlink tempFilePath]) := by
  refine ⟨parseBase64Field_dataUri, by decide, ?_, by decide⟩
  intro env b p fn hb hp hfn hs1 hs2 hdec
  have htb : truthy (some b) = true := by simp [truthy, hb]
  have htp : truthy (some p) = true := by simp [truthy, hp]
  have htf : truthy (some fn) = true := by simp [truthy, hfn]
  unfold uploadHandler
  simp [htb, htp, htf, hs1, hs2, hdec, truthy, hb, hp, hfn]

theorem c9_witness :
    parseBase64Field "data:text/plain;base64,SGVsbG8=" = ("SGVsbG8=", some "text/plain")
    ∧ uploadHandler envAllOk ⟨none, some "!!!", some "/up", some "f.bin"⟩
        = (.err 400 msgEmptyBase64 none, []) :=
  ⟨c9_base64_data_uri.1 "text/plain" "SGVsbG8=" (by decide) (by decide),
   c9_base64_data_uri.2.2.1 envAllOk "!!!" "/up" "f.bin" (by decide) (by decide)
     (by decide) (by decide) (by decide) (by decide)⟩

/-- C10: once a base64 request with valid parameters decodes to a
non-empty payload, the HTML sniff rejects it (the 400 HTML error) exactly
when the payload is shorter than 100 bytes AND contains the bytes of
`<!DOCTYPE html>` or `<html>`; in particular every payload of 100 bytes
or more passes the sniff whatever its content. -/
theorem c10_html_sniff_iff (env : UploadEnv) (b p fn : String)
    (hb : b ≠ "") (hp : p ≠ "") (hfn : fn ≠ "")
    (hs1 : strContains fn "/" = false) (hs2 : strContains fn "\\" = false)
    (hnz : decodeBase64 (parseBase64Field b).1 ≠ []) :
    ((uploadHandler env ⟨none, some b, some p, some fn⟩).1 = .err 400 msgHtmlBase64 none
      ↔ ((decodeBase64 (parseBase64Field b).1).length < 100
         ∧ (bytesContain (decodeBase64 (parseBase64Field b).1) doctypeBytes = true
            ∨ bytesContain (decodeBase64 (parseBase64Field b).1) htmlTagBytes = true))) := by
  have htb : truthy (some b) = true := by simp [truthy, hb]
  have htp : truthy (some p) = true := by simp [truthy, hp]
  have htf : truthy (some fn) = true := by simp [truthy, hfn]
  by_cases hsn : ((decodeBase64 (parseBase64Field b).1).length < 100
      ∧ (bytesContain (decodeBase64 (parseBase64Field b).1) doctypeBytes = true
         ∨ bytesContain (decodeBase64 (parseBase64Field b).1) htmlTagBytes = true))
  · unfold uploadHandler
    simp [htb, htp, htf, hs1, hs2, hnz, hsn, truthy, hb, hp, hfn]
  · unfold uploadHandler
    cases hf : env.ftp p fn with
    | error e => simp [htb, htp, htf, hs1, hs2, hnz, hsn, hf, truthy, hb, hp, hfn]
    | ok u => simp [htb, htp, htf, hs1, hs2, hnz, hsn, hf, truthy, hb, hp, hfn]

theorem c10_witness :
    ((uploadHandler envAllOk ⟨none, some "PGh0bWw+", some "/up", some "f.bin"⟩).1
        = .err 400 msgHtmlBase64 none
      ↔ ((decodeBase64 (parseBase64Field "PGh0bWw+").1).length < 100
         ∧ (bytesContain (decodeBase64 (parseBase64Field "PGh0bWw+").1) doctypeBytes = true
            ∨ bytesContain (decodeBase64 (parseBase64Field "PGh0bWw+").1) htmlTagBytes
                = true))) :=
  c10_html_sniff_iff envAllOk "PGh0bWw+" "/up" "f.bin" (by decide) (by decide) (by decide)
    (by decide) (by decide) (by decide)
